import Mathlib

/-!
Verification development for the GROUP_101_Dashboard application
(`app.py`): a Streamlit dashboard that runs a fixed catalog of
parameterized Postgres and MongoDB queries and renders the results.

The definitions below are a shallow embedding of the relevant parts of
`app.py`.  Python scalar values become the inductive `Val`; MongoDB
pipeline values (nested dicts / lists / strings / ints / bools /
datetimes) become the inductive `MVal`.  Python dicts appearing as
mappings are modelled as association lists with first-match lookup
(Python dicts have unique keys, so first-match lookup agrees with
Python semantics), preserving insertion order.
-/

/-- A scalar runtime parameter value (the sidebar context holds ints;
strings are included because the binder is quantified over arbitrary
scalar values, e.g. the statement-breaking string used in §8 of the
spec). -/
inductive Val where
  | vint (n : Int)
  | vstr (s : String)
deriving DecidableEq

/-- A MongoDB pipeline value: the shapes that occur in the `CONFIG`
aggregation pipelines of `app.py`.  `mdate t` models a
`datetime.datetime` object (the result of
`dt.datetime.utcnow() - dt.timedelta(...)`), abstracted as the moment
`t` in seconds. -/
inductive MVal where
  | mstr (s : String)
  | mint (n : Int)
  | mbool (b : Bool)
  | mdate (t : Int)
  | mdoc (fields : List (String × MVal))
  | marr (elems : List MVal)

/-- `true` iff the value is a Python `int` (used to state that document
binding does not preserve the integer type). -/
def MVal.isInt : MVal → Bool
  | .mint _ => true
  | _ => false

/-- First-match association-list lookup: the model of `d[k]` /
`d.get(k)` on a Python dict `d` represented as its insertion-ordered
item list. -/
def getCtx (ctx : List (String × Val)) (k : String) : Option Val :=
  match ctx with
  | [] => none
  | (k2, v) :: rest => if k2 = k then some v else getCtx rest k

/-- Same first-match lookup for `MVal`-valued dicts. -/
def getMField (d : List (String × MVal)) (k : String) : Option MVal :=
  match d with
  | [] => none
  | (k2, v) :: rest => if k2 = k then some v else getMField rest k

/-! ### Python `str.replace` and substring search

`app.py` uses `sql.replace("{S}.", f"{PG_SCHEMA}.")` (in `qualify`) and
`stages_str.replace(f":{key}", str(value))` (in `run_mongo_aggregate`).
Python `str.replace` replaces every occurrence, scanning left to right,
non-overlapping.  We implement that on character lists with explicit
fuel (each step consumes at least one character when the pattern is
nonempty, so `cs.length` fuel is always enough). -/

def replaceChars : Nat → List Char → List Char → List Char → List Char
  | 0, cs, _, _ => cs
  | Nat.succ f, cs, pat, rep =>
    match cs with
    | [] => []
    | c :: rest =>
      if pat.isPrefixOf cs then rep ++ replaceChars f (cs.drop pat.length) pat rep
      else c :: replaceChars f rest pat rep

/-- Python `s.replace(pat, rep)` for a nonempty `pat`. -/
def pyReplace (s pat rep : String) : String :=
  String.mk (replaceChars s.data.length s.data pat.data rep.data)

def containsSubChars : List Char → List Char → Bool
  | [], pat => pat.isEmpty
  | c :: rest, pat => pat.isPrefixOf (c :: rest) || containsSubChars rest pat

/-- Python `pat in s` (substring test). -/
def containsSub (s pat : String) : Bool :=
  containsSubChars s.data pat.data

/-! ### Schema qualification (`qualify`, app.py line 15)

```python
def qualify(sql: str) -> str:
    return sql.replace("{S}.", f"{PG_SCHEMA}.")
```
`PG_SCHEMA` is a process-wide configuration string; it is an explicit
argument here. -/

def qualify (schema sql : String) : String :=
  pyReplace sql "\x7bS\x7d." (schema ++ ".")

/-! ### Chart specs and query definitions (the `CONFIG` dict entries) -/

/-- A chart spec dict, e.g. `{"type": "pie", "names": ..., "values": ...}`.
`none` models an absent key (`spec.get(...)` / `spec[...]`). -/
structure ChartSpec where
  ctype : Option String := none
  x : Option String := none
  y : Option String := none
  names : Option String := none
  values : Option String := none
  rows : Option String := none
  cols : Option String := none
  path : Option (List String) := none

/-- One entry of `CONFIG["postgres"]["queries"]`: `"sql"`, `"chart"`,
`"tags"`, and optional `"params"` (`q.get("params", [])` defaults to an
empty list). -/
structure PgQuery where
  sql : String
  chart : ChartSpec
  tags : Option (List String)
  params : List String := []

/-- One entry of `CONFIG["mongo"]["queries"]`: `"collection"`,
`"aggregate"`, `"chart"`, `"tags"`. -/
structure MongoQuery where
  collection : String
  aggregate : List MVal
  chart : ChartSpec
  tags : List String

/-! ### Role filter (`filter_queries_by_role`, app.py lines 592-596)

```python
def filter_queries_by_role(qdict: dict, role: str) -> dict:
    def ok(tags):
        t = [s.lower() for s in (tags or ["all"])]
        return "all" in t or role.lower() in t
    return {name: q for name, q in qdict.items() if ok(q.get("tags"))}
```
-/

/-- Python `s.lower()` (exact on the ASCII role and tag strings the
dashboard uses). -/
def pyLower (s : String) : String := String.mk (s.data.map Char.toLower)

/-- The inner `ok` predicate: `tags or ["all"]` treats both a missing
`"tags"` key (`None`) and an empty tag list as the wildcard. -/
def okTags (tags : Option (List String)) (role : String) : Bool :=
  let base : List String :=
    match tags with
    | none => ["all"]
    | some [] => ["all"]
    | some l => l
  let t := base.map pyLower
  t.contains "all" || t.contains (pyLower role)

def filter_queries_by_role (qdict : List (String × PgQuery)) (role : String) :
    List (String × PgQuery) :=
  qdict.filter (fun p => okTags p.2.tags role)

/-- `specVisible` transcribes the SPEC's visibility rule (§4.2): a
definition is visible iff its role-tag set is empty or absent, contains
the wildcard tag, or contains the requested role under case-insensitive
comparison.  It is stated independently of `okTags` so the two can be
compared. -/
def specVisible (tags : Option (List String)) (role : String) : Prop :=
  tags = none ∨ tags = some [] ∨
    (∃ s ∈ tags.getD [], pyLower s = "all") ∨
    (∃ s ∈ tags.getD [], pyLower s = pyLower role)

instance (tags : Option (List String)) (role : String) :
    Decidable (specVisible tags role) := by
  unfold specVisible; infer_instance

/-! ### Relational binding (pg run block, app.py lines 606-613)

```python
sql = qualify(q["sql"])
...
wanted = q.get("params", [])
params = {k: PARAMS_CTX[k] for k in wanted}
df = run_pg_query(eng, sql, params=params)
```
`run_pg_query` (line 473) passes `text(sql)` and `params` separately to
`pd.read_sql`; the values travel as bind variables and are never
concatenated into `sql`.  The dict comprehension evaluates
`PARAMS_CTX[k]` for each `k` in declaration order and a missing key
raises `KeyError(k)` at the first absent name; modelled by
`Except.error k`. -/

def bindPgParams (wanted : List String) (ctx : List (String × Val)) :
    Except String (List (String × Val)) :=
  match wanted with
  | [] => .ok []
  | k :: rest =>
    match getCtx ctx k with
    | none => .error k
    | some v =>
      match bindPgParams rest ctx with
      | .error e => .error e
      | .ok bs => .ok ((k, v) :: bs)

/-- The bound relational artifact: statement text plus a separate
bindings mapping, exactly the pair `(sql, params)` handed to
`run_pg_query`. -/
structure BoundPg where
  stmt : String
  binds : List (String × Val)

def bindPg (schema : String) (q : PgQuery) (ctx : List (String × Val)) :
    Except String BoundPg :=
  match bindPgParams q.params ctx with
  | .error k => .error k
  | .ok bs => .ok ⟨qualify schema q.sql, bs⟩

/-! ### The sidebar parameter context (app.py lines 574-582) -/

def PARAMS_CTX (patient_id caregiver_id staff_id device_id
    alert_threshold days battery_threshold : Int) : List (String × Val) :=
  [ ("patient_id", .vint patient_id),
    ("caregiver_id", .vint caregiver_id),
    ("staff_id", .vint staff_id),
    ("device_id", .vint device_id),
    ("alert_threshold", .vint alert_threshold),
    ("days", .vint days),
    ("battery_threshold", .vint battery_threshold) ]

/-- Postgres catalog entry "患者: 我的健康数据概览 (表格)" (CONFIG, app.py). -/
def pgq_0 : PgQuery :=
  { sql := "\n                    SELECT hr.timestamp, hr.heartrate, hr.bloodpressure, \n                           hr.spo2, hr.stepcount, wd.devicetype\n                    FROM \x7bS\x7d.healthrecord hr\n                    JOIN \x7bS\x7d.wearabledevice wd ON hr.deviceid = wd.deviceid\n                    WHERE wd.assignedpatientid = :patient_id\n                    ORDER BY hr.timestamp DESC\n                    LIMIT 20;\n                ",
    chart := { ctype := some "table" },
    tags := some ["patient"], params := ["patient_id"] }

/-- Postgres catalog entry "患者: 我的警报状态 (表格)" (CONFIG, app.py). -/
def pgq_1 : PgQuery :=
  { sql := "\n                    SELECT a.alerttype, a.timestamp, a.alertstatus, \n                           a.location, c.name AS caregiver_name\n                    FROM \x7bS\x7d.alert a\n                    JOIN \x7bS\x7d.healthrecord hr ON a.recordid = hr.recordid\n                    JOIN \x7bS\x7d.wearabledevice wd ON hr.deviceid = wd.deviceid\n                    LEFT JOIN \x7bS\x7d.caregiver c ON a.recipientcaregiverid = c.caregiverid\n                    WHERE wd.assignedpatientid = :patient_id\n                    ORDER BY a.timestamp DESC;\n                ",
    chart := { ctype := some "table" },
    tags := some ["patient"], params := ["patient_id"] }

/-- Postgres catalog entry "患者: 我的设备电池状态 (饼图)" (CONFIG, app.py). -/
def pgq_2 : PgQuery :=
  { sql := "\n                    SELECT \n                        CASE \n                            WHEN batterylevel >= 80 THEN \x2780-100%\x27\n                            WHEN batterylevel >= 60 THEN \x2760-79%\x27\n                            WHEN batterylevel >= 40 THEN \x2740-59%\x27\n                            WHEN batterylevel >= 20 THEN \x2720-39%\x27\n                            ELSE \x27<20%\x27\n                        END AS battery_range,\n                        COUNT(*) AS device_count\n                    FROM \x7bS\x7d.wearabledevice\n                    WHERE assignedpatientid = :patient_id AND isactive = true\n                    GROUP BY battery_range\n                    ORDER BY battery_range;\n                ",
    chart := { ctype := some "pie", names := some "battery_range", values := some "device_count" },
    tags := some ["patient"], params := ["patient_id"] }

/-- Postgres catalog entry "护理人员: 需要响应的警报 (表格)" (CONFIG, app.py). -/
def pgq_3 : PgQuery :=
  { sql := "\n                    SELECT p.name AS patient_name, a.alerttype, a.timestamp, \n                           a.location, a.alertstatus\n                    FROM \x7bS\x7d.alert a\n                    JOIN \x7bS\x7d.healthrecord hr ON a.recordid = hr.recordid\n                    JOIN \x7bS\x7d.wearabledevice wd ON hr.deviceid = wd.deviceid\n                    JOIN \x7bS\x7d.patient p ON wd.assignedpatientid = p.patientid\n                    WHERE a.recipientcaregiverid = :caregiver_id\n                      AND a.alertstatus = \x27Unread\x27\n                    ORDER BY a.timestamp DESC;\n                ",
    chart := { ctype := some "table" },
    tags := some ["caregiver"], params := ["caregiver_id"] }

/-- Postgres catalog entry "护理人员: 我负责的患者活动统计 (柱状图)" (CONFIG, app.py). -/
def pgq_4 : PgQuery :=
  { sql := "\n                    SELECT p.name AS patient_name, \n                           AVG(hr.stepcount)::numeric(10,1) AS avg_steps\n                    FROM \x7bS\x7d.patient p\n                    JOIN \x7bS\x7d.patientcaregiverjunction pcj ON p.patientid = pcj.patientid\n                    JOIN \x7bS\x7d.wearabledevice wd ON p.patientid = wd.assignedpatientid\n                    JOIN \x7bS\x7d.healthrecord hr ON wd.deviceid = hr.deviceid\n                    WHERE pcj.caregiverid = :caregiver_id\n                      AND hr.timestamp >= CURRENT_DATE - INTERVAL \x277 days\x27\n                    GROUP BY p.name\n                    ORDER BY avg_steps DESC;\n                ",
    chart := { ctype := some "bar", x := some "patient_name", y := some "avg_steps" },
    tags := some ["caregiver"], params := ["caregiver_id"] }

/-- Postgres catalog entry "护理人员: 今日警报响应统计 (表格)" (CONFIG, app.py). -/
def pgq_5 : PgQuery :=
  { sql := "\n                    SELECT COUNT(*) AS total_alerts,\n                           COUNT(CASE WHEN alertstatus = \x27Responded\x27 THEN 1 END) AS responded_alerts,\n                           COUNT(CASE WHEN alertstatus = \x27Unread\x27 THEN 1 END) AS unread_alerts\n                    FROM \x7bS\x7d.alert a\n                    WHERE a.recipientcaregiverid = :caregiver_id\n                      AND a.timestamp::date = CURRENT_DATE;\n                ",
    chart := { ctype := some "table" },
    tags := some ["caregiver"], params := ["caregiver_id"] }

/-- Postgres catalog entry "医护人员: 异常健康报告 (表格)" (CONFIG, app.py). -/
def pgq_6 : PgQuery :=
  { sql := "\n                    SELECT p.name AS patient_name, hr.heartrate, hr.bloodpressure, \n                           hr.spo2, hr.timestamp, ht.metrictype, ht.minvalue, ht.maxvalue\n                    FROM \x7bS\x7d.healthrecord hr\n                    JOIN \x7bS\x7d.wearabledevice wd ON hr.deviceid = wd.deviceid\n                    JOIN \x7bS\x7d.patient p ON wd.assignedpatientid = p.patientid\n                    JOIN \x7bS\x7d.healththreshold ht ON p.patientid = ht.patientid\n                    WHERE ht.staffid = :staff_id\n                      AND (\n                        (ht.metrictype = \x27HeartRate\x27 AND hr.heartrate NOT BETWEEN ht.minvalue AND ht.maxvalue) OR\n                        (ht.metrictype = \x27BloodPressure_Systolic\x27 AND CAST(SPLIT_PART(hr.bloodpressure, \x27/\x27, 1) AS INTEGER) NOT BETWEEN ht.minvalue AND ht.maxvalue) OR\n                        (ht.metrictype = \x27SpO2\x27 AND hr.spo2 NOT BETWEEN ht.minvalue AND ht.maxvalue)\n                      )\n                    ORDER BY hr.timestamp DESC;\n                ",
    chart := { ctype := some "table" },
    tags := some ["medical_staff"], params := ["staff_id"] }

/-- Postgres catalog entry "医护人员: 患者健康阈值设置 (表格)" (CONFIG, app.py). -/
def pgq_7 : PgQuery :=
  { sql := "\n                    SELECT p.name AS patient_name, ht.metrictype, ht.minvalue, ht.maxvalue\n                    FROM \x7bS\x7d.healththreshold ht\n                    JOIN \x7bS\x7d.patient p ON ht.patientid = p.patientid\n                    WHERE ht.staffid = :staff_id\n                    ORDER BY p.name, ht.metrictype;\n                ",
    chart := { ctype := some "table" },
    tags := some ["medical_staff"], params := ["staff_id"] }

/-- Postgres catalog entry "医护人员: 高风险患者统计 (柱状图)" (CONFIG, app.py). -/
def pgq_8 : PgQuery :=
  { sql := "\n                    SELECT p.name AS patient_name, COUNT(a.alertid) AS alert_count\n                    FROM \x7bS\x7d.patient p\n                    JOIN \x7bS\x7d.wearabledevice wd ON p.patientid = wd.assignedpatientid\n                    JOIN \x7bS\x7d.healthrecord hr ON wd.deviceid = hr.deviceid\n                    JOIN \x7bS\x7d.alert a ON hr.recordid = a.recordid\n                    WHERE a.timestamp >= CURRENT_DATE - INTERVAL \x2730 days\x27\n                    GROUP BY p.name\n                    HAVING COUNT(a.alertid) > :alert_threshold\n                    ORDER BY alert_count DESC;\n                ",
    chart := { ctype := some "bar", x := some "patient_name", y := some "alert_count" },
    tags := some ["medical_staff"], params := ["staff_id", "alert_threshold"] }

/-- Postgres catalog entry "管理员: 设备管理概览 (表格)" (CONFIG, app.py). -/
def pgq_9 : PgQuery :=
  { sql := "\n                    SELECT wd.deviceid, wd.devicetype, wd.batterylevel, \n                           wd.isactive, p.name AS patient_name, wd.lastsynctime\n                    FROM \x7bS\x7d.wearabledevice wd\n                    LEFT JOIN \x7bS\x7d.patient p ON wd.assignedpatientid = p.patientid\n                    ORDER BY wd.deviceid;\n                ",
    chart := { ctype := some "table" },
    tags := some ["admin"] }

/-- Postgres catalog entry "管理员: 设备电池状态分布 (饼图)" (CONFIG, app.py). -/
def pgq_10 : PgQuery :=
  { sql := "\n                    SELECT \n                        CASE \n                            WHEN batterylevel >= 80 THEN \x2780-100%\x27\n                            WHEN batterylevel >= 60 THEN \x2760-79%\x27\n                            WHEN batterylevel >= 40 THEN \x2740-59%\x27\n                            WHEN batterylevel >= 20 THEN \x2720-39%\x27\n                            ELSE \x27<20%\x27\n                        END AS battery_range,\n                        COUNT(*) AS device_count\n                    FROM \x7bS\x7d.wearabledevice\n                    WHERE isactive = true\n                    GROUP BY battery_range\n                    ORDER BY battery_range;\n                ",
    chart := { ctype := some "pie", names := some "battery_range", values := some "device_count" },
    tags := some ["admin"] }

/-- Postgres catalog entry "管理员: 警报类型统计 (柱状图)" (CONFIG, app.py). -/
def pgq_11 : PgQuery :=
  { sql := "\n                    SELECT alerttype, COUNT(*) AS alert_count\n                    FROM \x7bS\x7d.alert\n                    WHERE timestamp >= CURRENT_DATE - INTERVAL \x277 days\x27\n                    GROUP BY alerttype\n                    ORDER BY alert_count DESC;\n                ",
    chart := { ctype := some "bar", x := some "alerttype", y := some "alert_count" },
    tags := some ["admin"] }

/-- Postgres catalog entry "管理员: 患者总数和平均年龄 (表格)" (CONFIG, app.py). -/
def pgq_12 : PgQuery :=
  { sql := "\n                    SELECT COUNT(*) AS total_patients, \n                           AVG(age)::numeric(10,1) AS avg_age,\n                           COUNT(CASE WHEN age >= 80 THEN 1 END) AS elderly_patients\n                    FROM \x7bS\x7d.patient;\n                ",
    chart := { ctype := some "table" },
    tags := some ["admin"] }

/-- Postgres catalog entry "管理员: 护理人员工作负载 (柱状图)" (CONFIG, app.py). -/
def pgq_13 : PgQuery :=
  { sql := "\n                    SELECT c.name AS caregiver_name, \n                           COUNT(pcj.patientid) AS patient_count\n                    FROM \x7bS\x7d.caregiver c\n                    LEFT JOIN \x7bS\x7d.patientcaregiverjunction pcj ON c.caregiverid = pcj.caregiverid\n                    GROUP BY c.name\n                    ORDER BY patient_count DESC;\n                ",
    chart := { ctype := some "bar", x := some "caregiver_name", y := some "patient_count" },
    tags := some ["admin"] }

/-- The dict of Postgres query definitions as an insertion-ordered list. -/
def pgQueries : List (String × PgQuery) :=
  [ ("患者: 我的健康数据概览 (表格)", pgq_0), ("患者: 我的警报状态 (表格)", pgq_1), ("患者: 我的设备电池状态 (饼图)", pgq_2), ("护理人员: 需要响应的警报 (表格)", pgq_3), ("护理人员: 我负责的患者活动统计 (柱状图)", pgq_4), ("护理人员: 今日警报响应统计 (表格)", pgq_5), ("医护人员: 异常健康报告 (表格)", pgq_6), ("医护人员: 患者健康阈值设置 (表格)", pgq_7), ("医护人员: 高风险患者统计 (柱状图)", pgq_8), ("管理员: 设备管理概览 (表格)", pgq_9), ("管理员: 设备电池状态分布 (饼图)", pgq_10), ("管理员: 警报类型统计 (柱状图)", pgq_11), ("管理员: 患者总数和平均年龄 (表格)", pgq_12), ("管理员: 护理人员工作负载 (柱状图)", pgq_13) ]

/-- Mongo catalog entry "传感器: 患者心率趋势 (过去24小时)" (CONFIG, app.py).  The
pipeline is built at import time; `now` abstracts `dt.datetime.utcnow()`. -/
def mq_0 (now : Int) : MongoQuery :=
  { collection := "sensor_readings",
    aggregate :=
      [ .mdoc [("$match", .mdoc [("patient_id", .mstr ":patient_id"), ("timestamp", .mdoc [("$gte", .mdate (now - 86400))]), ("heart_rate", .mdoc [("$exists", .mbool true)])])],
        .mdoc [("$project", .mdoc [("hour", .mdoc [("$dateTrunc", .mdoc [("date", .mstr "$timestamp"), ("unit", .mstr "hour")])]), ("heart_rate", .mint 1)])],
        .mdoc [("$group", .mdoc [("_id", .mstr "$hour"), ("avg_heart_rate", .mdoc [("$avg", .mstr "$heart_rate")]), ("count", .mdoc [("$count", .mdoc [])])])],
        .mdoc [("$sort", .mdoc [("_id", .mint 1)])] ],
    chart := { ctype := some "line", x := some "_id", y := some "avg_heart_rate" },
    tags := ["patient", "medical_staff"] }

/-- Mongo catalog entry "传感器: 血氧异常检测 (过去7天)" (CONFIG, app.py).  The
pipeline is built at import time; `now` abstracts `dt.datetime.utcnow()`. -/
def mq_1 (now : Int) : MongoQuery :=
  { collection := "sensor_readings",
    aggregate :=
      [ .mdoc [("$match", .mdoc [("timestamp", .mdoc [("$gte", .mdate (now - 604800))]), ("spo2", .mdoc [("$lt", .mint 92)])])],
        .mdoc [("$group", .mdoc [("_id", .mstr "$patient_id"), ("low_spo2_count", .mdoc [("$count", .mdoc [])])])],
        .mdoc [("$sort", .mdoc [("low_spo2_count", .mint (-1))])] ],
    chart := { ctype := some "bar", x := some "_id", y := some "low_spo2_count" },
    tags := ["medical_staff", "admin"] }

/-- Mongo catalog entry "传感器: 血压分布统计" (CONFIG, app.py).  The
pipeline is built at import time; `now` abstracts `dt.datetime.utcnow()`. -/
def mq_2 (now : Int) : MongoQuery :=
  { collection := "sensor_readings",
    aggregate :=
      [ .mdoc [("$match", .mdoc [("blood_pressure", .mdoc [("$exists", .mbool true)]), ("timestamp", .mdoc [("$gte", .mdate (now - 2592000))])])],
        .mdoc [("$addFields", .mdoc [("systolic", .mdoc [("$toInt", .mdoc [("$arrayElemAt", .marr [.mdoc [("$split", .marr [.mstr "$blood_pressure", .mstr "/"])], .mint 0])])])])],
        .mdoc [("$bucket", .mdoc [("groupBy", .mstr "$systolic"), ("boundaries", .marr [.mint 0, .mint 90, .mint 120, .mint 140, .mint 160, .mint 200]), ("default", .mstr "200+"), ("output", .mdoc [("count", .mdoc [("$sum", .mint 1)])])])] ],
    chart := { ctype := some "pie", names := some "_id", values := some "count" },
    tags := ["medical_staff", "admin"] }

/-- Mongo catalog entry "设备: 最新设备状态 (表格)" (CONFIG, app.py).  The
pipeline is built at import time; `now` abstracts `dt.datetime.utcnow()`. -/
def mq_3 (_now : Int) : MongoQuery :=
  { collection := "device_status",
    aggregate :=
      [ .mdoc [("$sort", .mdoc [("timestamp", .mint (-1))])],
        .mdoc [("$group", .mdoc [("_id", .mstr "$sensor_id"), ("latest_status", .mdoc [("$first", .mstr "$$ROOT")])])],
        .mdoc [("$replaceRoot", .mdoc [("newRoot", .mstr "$latest_status")])],
        .mdoc [("$project", .mdoc [("_id", .mint 0), ("sensor_id", .mint 1), ("patient_id", .mint 1), ("timestamp", .mint 1), ("battery_level", .mint 1), ("is_active", .mint 1)])] ],
    chart := { ctype := some "table" },
    tags := ["admin", "caregiver"] }

/-- Mongo catalog entry "设备: 电池电量分布" (CONFIG, app.py).  The
pipeline is built at import time; `now` abstracts `dt.datetime.utcnow()`. -/
def mq_4 (_now : Int) : MongoQuery :=
  { collection := "device_status",
    aggregate :=
      [ .mdoc [("$project", .mdoc [("battery_level", .mdoc [("$ifNull", .marr [.mstr "$battery_level", .mint 0])]), ("battery_range", .mdoc [("$switch", .mdoc [("branches", .marr [.mdoc [("case", .mdoc [("$gte", .marr [.mstr "$battery_level", .mint 80])]), ("then", .mstr "80-100%")], .mdoc [("case", .mdoc [("$gte", .marr [.mstr "$battery_level", .mint 60])]), ("then", .mstr "60-79%")], .mdoc [("case", .mdoc [("$gte", .marr [.mstr "$battery_level", .mint 40])]), ("then", .mstr "40-59%")], .mdoc [("case", .mdoc [("$gte", .marr [.mstr "$battery_level", .mint 20])]), ("then", .mstr "20-39%")]]), ("default", .mstr "<20%")])])])],
        .mdoc [("$group", .mdoc [("_id", .mstr "$battery_range"), ("count", .mdoc [("$count", .mdoc [])])])],
        .mdoc [("$sort", .mdoc [("count", .mint (-1))])] ],
    chart := { ctype := some "pie", names := some "_id", values := some "count" },
    tags := ["admin", "caregiver"] }

/-- Mongo catalog entry "设备: 低电量设备警报" (CONFIG, app.py).  The
pipeline is built at import time; `now` abstracts `dt.datetime.utcnow()`. -/
def mq_5 (_now : Int) : MongoQuery :=
  { collection := "device_status",
    aggregate :=
      [ .mdoc [("$match", .mdoc [("battery_level", .mdoc [("$lt", .mint 20)]), ("is_active", .mbool true)])],
        .mdoc [("$group", .mdoc [("_id", .mstr "$sensor_id"), ("low_battery_count", .mdoc [("$count", .mdoc [])])])],
        .mdoc [("$sort", .mdoc [("low_battery_count", .mint (-1))])] ],
    chart := { ctype := some "bar", x := some "_id", y := some "low_battery_count" },
    tags := ["admin"] }

/-- Mongo catalog entry "警报: 最近警报统计 (表格)" (CONFIG, app.py).  The
pipeline is built at import time; `now` abstracts `dt.datetime.utcnow()`. -/
def mq_6 (now : Int) : MongoQuery :=
  { collection := "alerts",
    aggregate :=
      [ .mdoc [("$match", .mdoc [("timestamp", .mdoc [("$gte", .mdate (now - 604800))])])],
        .mdoc [("$group", .mdoc [("_id", .mstr "$alert_type"), ("count", .mdoc [("$count", .mdoc [])]), ("latest_timestamp", .mdoc [("$max", .mstr "$timestamp")])])],
        .mdoc [("$sort", .mdoc [("count", .mint (-1))])] ],
    chart := { ctype := some "table" },
    tags := ["admin", "caregiver", "medical_staff"] }

/-- Mongo catalog entry "警报: 警报严重程度分布" (CONFIG, app.py).  The
pipeline is built at import time; `now` abstracts `dt.datetime.utcnow()`. -/
def mq_7 (now : Int) : MongoQuery :=
  { collection := "alerts",
    aggregate :=
      [ .mdoc [("$match", .mdoc [("timestamp", .mdoc [("$gte", .mdate (now - 2592000))])])],
        .mdoc [("$group", .mdoc [("_id", .mstr "$severity"), ("count", .mdoc [("$count", .mdoc [])])])],
        .mdoc [("$sort", .mdoc [("count", .mint (-1))])] ],
    chart := { ctype := some "pie", names := some "_id", values := some "count" },
    tags := ["admin", "medical_staff"] }

/-- Mongo catalog entry "警报: 患者警报频率排行" (CONFIG, app.py).  The
pipeline is built at import time; `now` abstracts `dt.datetime.utcnow()`. -/
def mq_8 (now : Int) : MongoQuery :=
  { collection := "alerts",
    aggregate :=
      [ .mdoc [("$match", .mdoc [("timestamp", .mdoc [("$gte", .mdate (now - 2592000))])])],
        .mdoc [("$group", .mdoc [("_id", .mstr "$patient_id"), ("alert_count", .mdoc [("$count", .mdoc [])])])],
        .mdoc [("$sort", .mdoc [("alert_count", .mint (-1))])],
        .mdoc [("$limit", .mint 10)] ],
    chart := { ctype := some "bar", x := some "_id", y := some "alert_count" },
    tags := ["admin", "medical_staff"] }

/-- Mongo catalog entry "审计: 用户操作日志 (最近24小时)" (CONFIG, app.py).  The
pipeline is built at import time; `now` abstracts `dt.datetime.utcnow()`. -/
def mq_9 (now : Int) : MongoQuery :=
  { collection := "audit_logs",
    aggregate :=
      [ .mdoc [("$match", .mdoc [("timestamp", .mdoc [("$gte", .mdate (now - 86400))])])],
        .mdoc [("$group", .mdoc [("_id", .mstr "$action"), ("count", .mdoc [("$count", .mdoc [])]), ("users", .mdoc [("$addToSet", .mstr "$user_id")])])],
        .mdoc [("$project", .mdoc [("action", .mstr "$_id"), ("count", .mint 1), ("unique_users", .mdoc [("$size", .mstr "$users")])])],
        .mdoc [("$sort", .mdoc [("count", .mint (-1))])] ],
    chart := { ctype := some "table" },
    tags := ["admin"] }

/-- Mongo catalog entry "审计: 操作类型分布" (CONFIG, app.py).  The
pipeline is built at import time; `now` abstracts `dt.datetime.utcnow()`. -/
def mq_10 (now : Int) : MongoQuery :=
  { collection := "audit_logs",
    aggregate :=
      [ .mdoc [("$match", .mdoc [("timestamp", .mdoc [("$gte", .mdate (now - 604800))])])],
        .mdoc [("$group", .mdoc [("_id", .mstr "$action"), ("count", .mdoc [("$count", .mdoc [])])])],
        .mdoc [("$sort", .mdoc [("count", .mint (-1))])] ],
    chart := { ctype := some "pie", names := some "_id", values := some "count" },
    tags := ["admin"] }

/-- Mongo catalog entry "审计: 用户活动趋势 (过去7天)" (CONFIG, app.py).  The
pipeline is built at import time; `now` abstracts `dt.datetime.utcnow()`. -/
def mq_11 (now : Int) : MongoQuery :=
  { collection := "audit_logs",
    aggregate :=
      [ .mdoc [("$match", .mdoc [("timestamp", .mdoc [("$gte", .mdate (now - 604800))])])],
        .mdoc [("$project", .mdoc [("day", .mdoc [("$dateTrunc", .mdoc [("date", .mstr "$timestamp"), ("unit", .mstr "day")])]), ("user_id", .mint 1)])],
        .mdoc [("$group", .mdoc [("_id", .mstr "$day"), ("unique_users", .mdoc [("$addToSet", .mstr "$user_id")]), ("total_actions", .mdoc [("$count", .mdoc [])])])],
        .mdoc [("$project", .mdoc [("day", .mstr "$_id"), ("unique_users_count", .mdoc [("$size", .mstr "$unique_users")]), ("total_actions", .mint 1)])],
        .mdoc [("$sort", .mdoc [("day", .mint 1)])] ],
    chart := { ctype := some "line", x := some "day", y := some "total_actions" },
    tags := ["admin"] }

/-- The dict of Mongo query definitions as an insertion-ordered list. -/
def mongoQueries (now : Int) : List (String × MongoQuery) :=
  [ ("传感器: 患者心率趋势 (过去24小时)", mq_0 now), ("传感器: 血氧异常检测 (过去7天)", mq_1 now), ("传感器: 血压分布统计", mq_2 now), ("设备: 最新设备状态 (表格)", mq_3 now), ("设备: 电池电量分布", mq_4 now), ("设备: 低电量设备警报", mq_5 now), ("警报: 最近警报统计 (表格)", mq_6 now), ("警报: 警报严重程度分布", mq_7 now), ("警报: 患者警报频率排行", mq_8 now), ("审计: 用户操作日志 (最近24小时)", mq_9 now), ("审计: 操作类型分布", mq_10 now), ("审计: 用户活动趋势 (过去7天)", mq_11 now) ]

/-! ### Document binding (`run_mongo_aggregate`, app.py lines 495-506)

```python
@st.cache_data(ttl=60)
def run_mongo_aggregate(_client, db_name: str, coll: str, stages: list, params: dict = None):
    if params:
        stages_str = str(stages)
        for key, value in params.items():
            stages_str = stages_str.replace(f":{key}", str(value))
        stages = eval(stages_str)
    db = _client[db_name]
    docs = list(db[coll].aggregate(stages, allowDiskUse=True))
    return pd.json_normalize(docs) if docs else pd.DataFrame()
```

The parameter substitution serializes the pipeline with `str`, performs
textual replacement, and re-evaluates the text with `eval`.  `pyReprV`
below is the model of Python `str`/`repr` on pipeline values (strings
are rendered in single quotes with no escaping, which is exact for
every string occurring in the catalog; dict items are rendered as
`'key': value` joined by `", "`).  A `datetime.datetime` object
renders as `datetime.datetime(...)`; the model keeps only the abstract
time component.  Note that `app.py` imports the datetime module as
`dt`, so `eval` of a serialization containing `datetime.datetime(...)`
raises `NameError`; correspondingly `pEvalVal` fails on the `mdate`
rendering. -/

mutual
def pyReprV : MVal → String
  | .mstr s => "\x27" ++ s ++ "\x27"
  | .mint n => toString n
  | .mbool b => if b then "True" else "False"
  | .mdate t => "datetime.datetime(" ++ toString t ++ ")"
  | .mdoc fs => "\x7b" ++ pyReprFields fs ++ "\x7d"
  | .marr xs => "[" ++ pyReprList xs ++ "]"

def pyReprFields : List (String × MVal) → String
  | [] => ""
  | [(k, v)] => "\x27" ++ k ++ "\x27: " ++ pyReprV v
  | (k, v) :: rest => "\x27" ++ k ++ "\x27: " ++ pyReprV v ++ ", " ++ pyReprFields rest

def pyReprList : List MVal → String
  | [] => ""
  | [v] => pyReprV v
  | v :: rest => pyReprV v ++ ", " ++ pyReprList rest
end

/-- Python `str(value)` on a scalar parameter value, as used by the
substitution loop: an int renders in decimal, a string renders as its
raw text (no quotes). -/
def pyStr : Val → String
  | .vint n => toString n
  | .vstr s => s

/-! A model of Python `eval` on the literal fragment that
`str(stages)` produces: single-quoted strings, decimal ints, `True` /
`False`, lists and dicts.  Recursive descent over the character list
with explicit fuel; anything else (e.g. the `datetime.datetime(...)`
rendering, whose name is unbound in `app.py`) fails, exactly as `eval`
raises there. -/

def pSkipSpace (cs : List Char) : List Char :=
  cs.dropWhile (fun c => c = ' ')

/-- Consume characters up to (and including) the next single quote;
`none` when the quote never comes. -/
def pTakeStr : List Char → Option (List Char × List Char)
  | [] => none
  | c :: rest =>
    if c = '\x27' then some ([], rest)
    else
      match pTakeStr rest with
      | none => none
      | some (s, r) => some (c :: s, r)

def strToNatAcc (ds : List Char) : Nat :=
  ds.foldl (fun a c => a * 10 + (c.toNat - 48)) 0

mutual
def pEvalVal : Nat → List Char → Option (MVal × List Char)
  | 0, _ => none
  | Nat.succ f, cs =>
    match pSkipSpace cs with
    | [] => none
    | c :: rest =>
      if c = '\x27' then
        match pTakeStr rest with
        | none => none
        | some (s, r) => some (.mstr (String.mk s), r)
      else if c = '[' then
        match pSkipSpace rest with
        | ']' :: r => some (.marr [], r)
        | r => match pEvalList f r with
               | none => none
               | some (xs, r2) => some (.marr xs, r2)
      else if c = '\x7b' then
        match pSkipSpace rest with
        | '\x7d' :: r => some (.mdoc [], r)
        | r => match pEvalFields f r with
               | none => none
               | some (fs, r2) => some (.mdoc fs, r2)
      else if c = '-' then
        match rest.takeWhile Char.isDigit with
        | [] => none
        | ds => some (.mint (-(strToNatAcc ds : Nat) : Int), rest.dropWhile Char.isDigit)
      else if c.isDigit then
        some (.mint (strToNatAcc ((c :: rest).takeWhile Char.isDigit)),
              (c :: rest).dropWhile Char.isDigit)
      else if List.isPrefixOf "True".data (c :: rest) then
        some (.mbool true, (c :: rest).drop 4)
      else if List.isPrefixOf "False".data (c :: rest) then
        some (.mbool false, (c :: rest).drop 5)
      else none

/-- Elements of a (nonempty) list literal, up to the closing `]`. -/
def pEvalList : Nat → List Char → Option (List MVal × List Char)
  | 0, _ => none
  | Nat.succ f, cs =>
    match pEvalVal f cs with
    | none => none
    | some (v, r) =>
      match pSkipSpace r with
      | ']' :: r2 => some ([v], r2)
      | ',' :: r2 =>
        match pEvalList f r2 with
        | none => none
        | some (vs, r3) => some (v :: vs, r3)
      | _ => none

/-- Items of a (nonempty) dict literal, up to the closing brace. -/
def pEvalFields : Nat → List Char → Option (List (String × MVal) × List Char)
  | 0, _ => none
  | Nat.succ f, cs =>
    match pSkipSpace cs with
    | '\x27' :: r =>
      match pTakeStr r with
      | none => none
      | some (k, r2) =>
        match pSkipSpace r2 with
        | ':' :: r3 =>
          match pEvalVal f r3 with
          | none => none
          | some (v, r4) =>
            match pSkipSpace r4 with
            | '\x7d' :: r5 => some ([(String.mk k, v)], r5)
            | ',' :: r5 =>
              match pEvalFields f r5 with
              | none => none
              | some (fs, r6) => some ((String.mk k, v) :: fs, r6)
            | _ => none
        | _ => none
    | _ => none
end

/-- Python `eval` on the serialized-and-substituted pipeline text: it
must produce a list with no trailing garbage. -/
def pyEvalStages (s : String) : Option (List MVal) :=
  match pEvalVal (2 * s.data.length + 16) s.data with
  | some (.marr xs, r) => if (pSkipSpace r).isEmpty then some xs else none
  | _ => none

/-- The parameter-substitution part of `run_mongo_aggregate`: when
`params` is empty (`if params:` is falsy) the stages pass through
untouched; otherwise the pipeline is serialized, each `:key` token is
replaced textually by `str(value)`, and the text is re-evaluated.
`none` models `eval` raising. -/
def run_mongo_bind (stages : List MVal) (params : List (String × Val)) :
    Option (List MVal) :=
  if params.isEmpty then some stages
  else
    let s0 := "[" ++ pyReprList stages ++ "]"
    let s1 := params.foldl
      (fun acc kv => pyReplace acc (":" ++ kv.1) (pyStr kv.2)) s0
    pyEvalStages s1

/-! ### The Mongo panel's parameter detection (app.py lines 636-650)

```python
mongo_params = {}
if "patient_id" in q.get("aggregate", []):
    mongo_params["patient_id"] = PARAMS_CTX["patient_id"]
... (likewise caregiver_id, staff_id, device_id, alert_threshold,
     battery_threshold)
dfm = run_mongo_aggregate(mongo_client, mongo_db, q["collection"], q["aggregate"], mongo_params)
```

Python's `x in list` tests `x == element` for each element; comparing
the string against a stage dict is `False`, so the test only succeeds
when a *top-level stage itself* is that exact string. -/

def strInStages (s : String) (agg : List MVal) : Bool :=
  agg.any (fun v => match v with | .mstr t => t = s | _ => false)

def MONGO_PARAM_NAMES : List String :=
  ["patient_id", "caregiver_id", "staff_id", "device_id",
   "alert_threshold", "battery_threshold"]

/-- The `mongo_params` dict built by the run block.  `PARAMS_CTX` always
carries all six names, so the lookup is modelled with a default that is
never reached when the sidebar context is used. -/
def detectMongoParams (q : MongoQuery) (ctx : List (String × Val)) :
    List (String × Val) :=
  (MONGO_PARAM_NAMES.filter (fun n => strInStages n q.aggregate)).map
    (fun n => (n, (getCtx ctx n).getD (Val.vint 0)))

/-! Recursive search for a string value anywhere inside a pipeline
value (used to state that a placeholder token survives binding). -/
mutual
def containsStrV : MVal → String → Bool
  | .mstr t, s => t = s
  | .mdoc fs, s => containsStrFields fs s
  | .marr xs, s => containsStrListV xs s
  | _, _ => false

def containsStrFields : List (String × MVal) → String → Bool
  | [], _ => false
  | (_, v) :: rest, s => containsStrV v s || containsStrFields rest s

def containsStrListV : List MVal → String → Bool
  | [], _ => false
  | v :: rest, s => containsStrV v s || containsStrListV rest s
end

/-! ### Tabular results

A `pandas.DataFrame` restricted to what the dashboard observes: an
ordered list of column names and rows aligned positionally with the
columns; `none` in a cell is `NaN`/null. -/

structure TabularResult where
  columns : List String
  rows : List (List (Option MVal))

/-- `df.empty` in pandas: true iff either axis has length zero. -/
def pdEmpty (df : TabularResult) : Bool :=
  df.rows.isEmpty || df.columns.isEmpty

/-! ### Flattening documents (`pd.json_normalize`, app.py line 506)

`pd.json_normalize(docs)` flattens each document (nested dicts become
dotted column names, lists are kept as values), takes as columns the
union of all observed fields in order of first appearance, and fills a
row's absent fields with null. -/

mutual
def flattenEntry (pre k : String) : MVal → List (String × MVal)
  | .mdoc sub => flattenFields (pre ++ k ++ ".") sub
  | v => [(pre ++ k, v)]

def flattenFields (pre : String) : List (String × MVal) → List (String × MVal)
  | [] => []
  | (k, v) :: rest => flattenEntry pre k v ++ flattenFields pre rest
end

/-- Accumulate the keys `ks` into the column list `acc`, keeping first
appearances only. -/
def addCols (acc ks : List String) : List String :=
  ks.foldl (fun a k => if a.contains k then a else a ++ [k]) acc

def json_normalize (docs : List (List (String × MVal))) : TabularResult :=
  let flat := docs.map (flattenFields "")
  let cols := flat.foldl (fun a d => addCols a (d.map Prod.fst)) []
  { columns := cols,
    rows := flat.map (fun d => cols.map (fun c => getMField d c)) }

/-- The result construction of `run_mongo_aggregate`:
`pd.json_normalize(docs) if docs else pd.DataFrame()`. -/
def mongoResult (docs : List (List (String × MVal))) : TabularResult :=
  if docs.isEmpty then ⟨[], []⟩ else json_normalize docs

/-! ### Chart rendering (`render_chart`, app.py lines 508-537)

```python
def render_chart(df: pd.DataFrame, spec: dict):
    if df.empty:
        st.info("No rows.")
        return
    ctype = spec.get("type", "table")
    for c in df.columns:
        if df[c].dtype == "object":
            try:
                df[c] = pd.to_datetime(df[c])
            except Exception:
                pass
    if ctype == "table": st.dataframe(df, ...)
    elif ctype == "line": st.plotly_chart(px.line(df, x=spec["x"], y=spec["y"]), ...)
    elif ctype == "bar":  st.plotly_chart(px.bar(df, x=spec["x"], y=spec["y"]), ...)
    elif ctype == "pie":  st.plotly_chart(px.pie(df, names=spec["names"], values=spec["values"]), ...)
    elif ctype == "heatmap": pivot = pd.pivot_table(df, index=spec["rows"], columns=spec["cols"], values=spec["values"], ...); ...
    elif ctype == "treemap": st.plotly_chart(px.treemap(df, path=spec["path"], values=spec["values"]), ...)
    else: st.dataframe(df, ...)
```

The outcome of a call is modelled by `RenderResult`.  `exn` is an
exception raised by a lookup (`spec[...]` on an absent key is
`KeyError`) or by the plotting call (a referenced column absent from
`df` makes plotly raise `ValueError`); such an exception escapes
`render_chart`, which installs no handler of its own, and is caught
only by the panel-wide `except` of the page.  `renderError` is the
SPEC's concept of a validated render error reported in place of the
chart (§4.6/§7); it appears here only so the specified behaviour can be
compared with the code, which never produces it. -/

inductive RenderResult where
  | noData
  | table (df : TabularResult)
  | chart (kind : String) (df : TabularResult)
  | renderError (msg : String)
  | exn (msg : String)

def RenderResult.isRenderError : RenderResult → Bool
  | .renderError _ => true
  | _ => false

/-- Best-effort date parsing, a model of `pd.to_datetime` restricted to
ISO `YYYY-MM-DD` strings: anything else fails, which leaves the column
unchanged (the `except: pass`). -/
def isoParse (s : String) : Option Int :=
  match s.splitOn "-" with
  | [y, m, d] =>
    if y.length = 4 ∧ m.length = 2 ∧ d.length = 2 ∧
       y.data.all Char.isDigit ∧ m.data.all Char.isDigit ∧ d.data.all Char.isDigit then
      some ((strToNatAcc y.data : Nat) * 10000 + (strToNatAcc m.data : Nat) * 100 +
            (strToNatAcc d.data : Nat) : Nat)
    else none
  | _ => none

/-- `df[c].dtype == "object"`: the column holds Python objects, i.e. at
least one string value. -/
def colIsObject (col : List (Option MVal)) : Bool :=
  col.any (fun v => match v with | some (.mstr _) => true | _ => false)

/-- `pd.to_datetime` on a whole column: succeeds only when every
non-null entry is a parseable string (nulls become `NaT`); on failure
the exception is swallowed and the column is unchanged. -/
def toDatetimeEntry : Option MVal → Option (Option MVal)
  | none => some none
  | some (.mstr s) => (isoParse s).map (fun t => some (.mdate t))
  | some _ => none

def toDatetimeCol (col : List (Option MVal)) : List (Option MVal) :=
  if colIsObject col then
    match col.mapM toDatetimeEntry with
    | some col2 => col2
    | none => col
  else col

/-- The column-wise datetime pass of `render_chart` (columns and the
number of rows are untouched; only cell values may change). -/
def parse_dates (df : TabularResult) : TabularResult :=
  let cols := (List.range df.columns.length).map
    (fun i => toDatetimeCol (df.rows.map (fun r => r.getD i none)))
  { columns := df.columns,
    rows := (List.range df.rows.length).map
      (fun j => cols.map (fun c => c.getD j none)) }

/-- `px.line` / `px.bar` (with `x`/`y`) and `px.pie` (with
`names`/`values`): an absent spec key is a `KeyError`, a referenced
column missing from `df` is plotly's `ValueError`. -/
def renderXY (kind : String) (df : TabularResult) (a b : Option String) :
    RenderResult :=
  match a, b with
  | some ca, some cb =>
    if df.columns.contains ca && df.columns.contains cb then .chart kind df
    else .exn "ValueError: value not found in columns"
  | _, _ => .exn "KeyError"

/-- `pd.pivot_table` with `index=spec["rows"]`, `columns=spec["cols"]`,
`values=spec["values"]`. -/
def renderHeatmap (df : TabularResult) (spec : ChartSpec) : RenderResult :=
  match spec.rows, spec.cols, spec.values with
  | some r, some c, some v =>
    if df.columns.contains r && df.columns.contains c && df.columns.contains v then
      .chart "heatmap" df
    else .exn "KeyError: column not found"
  | _, _, _ => .exn "KeyError"

/-- `px.treemap` with `path=spec["path"]`, `values=spec["values"]`. -/
def renderTreemap (df : TabularResult) (spec : ChartSpec) : RenderResult :=
  match spec.path, spec.values with
  | some p, some v =>
    if p.all df.columns.contains && df.columns.contains v then .chart "treemap" df
    else .exn "ValueError: value not found in columns"
  | _, _ => .exn "KeyError"

def renderDispatch (df : TabularResult) (spec : ChartSpec) : RenderResult :=
  let ct := spec.ctype.getD "table"
  if ct = "table" then .table df
  else if ct = "line" then renderXY "line" df spec.x spec.y
  else if ct = "bar" then renderXY "bar" df spec.x spec.y
  else if ct = "pie" then renderXY "pie" df spec.names spec.values
  else if ct = "heatmap" then renderHeatmap df spec
  else if ct = "treemap" then renderTreemap df spec
  else .table df

def render_chart (df : TabularResult) (spec : ChartSpec) : RenderResult :=
  if pdEmpty df then .noData
  else renderDispatch (parse_dates df) spec

/-! ### The result cache (`@st.cache_data(ttl=60)`, app.py lines 472 and 495)

Both executors are wrapped in Streamlit's data cache with a fixed
60-second TTL.  The cache is modelled as an association list from an
opaque key (the hash of the non-underscore arguments: statement text
plus bindings, or collection plus stages plus params) to a value and
its computation time; an entry is served while `now ≤ computedAt + ttl`
and recomputed afterwards, which is `st.cache_data`'s expiry rule
(expired iff `time.time() - cached_at > ttl`). -/

structure CacheEntry (α : Type) where
  value : α
  computedAt : Nat

def cacheLookup {α : Type} (st : List (String × CacheEntry α)) (k : String) :
    Option (CacheEntry α) :=
  match st with
  | [] => none
  | (k2, e) :: rest => if k2 = k then some e else cacheLookup rest k

/-- One cached call: returns the value, the new cache state, and
whether the underlying computation (the backend round-trip) ran. -/
def get_or_compute {α : Type} (st : List (String × CacheEntry α)) (k : String)
    (now ttl : Nat) (v : α) : α × List (String × CacheEntry α) × Bool :=
  match cacheLookup st k with
  | some e =>
    if now ≤ e.computedAt + ttl then (e.value, st, false)
    else (v, (k, ⟨v, now⟩) :: st, true)
  | none => (v, (k, ⟨v, now⟩) :: st, true)

/-- The TTL both `run_pg_query` and `run_mongo_aggregate` are declared
with: `@st.cache_data(ttl=60)`. -/
def CACHE_TTL : Nat := 60

/-- A cached executor call with the TTL from the source. -/
def run_query_cached {α : Type} (st : List (String × CacheEntry α)) (k : String)
    (now : Nat) (v : α) : α × List (String × CacheEntry α) × Bool :=
  get_or_compute st k now CACHE_TTL v

/-! ## Claims -/

/-- Auxiliary: a successful dict comprehension binds exactly the wanted
names, in order, to their context values. -/
theorem bindPgParams_ok_forall (wanted : List String) (ctx : List (String × Val)) :
    ∀ bs, bindPgParams wanted ctx = Except.ok bs →
      List.Forall₂ (fun k p => p.1 = k ∧ getCtx ctx k = some p.2) wanted bs := by
  induction wanted with
  | nil =>
    intro bs h
    simp only [bindPgParams] at h
    cases h
    exact List.Forall₂.nil
  | cons k rest ih =>
    intro bs h
    unfold bindPgParams at h
    cases h0 : getCtx ctx k with
    | none => rw [h0] at h; cases h
    | some v =>
      rw [h0] at h
      cases h1 : bindPgParams rest ctx with
      | error e => rw [h1] at h; cases h
      | ok bs2 =>
        rw [h1] at h
        cases h
        exact List.Forall₂.cons ⟨rfl, h0⟩ (ih bs2 h1)

/-- C1: for every relational query definition and every parameter
context, a successful bind yields a statement text that is exactly the
catalog template after schema qualification — the same text for every
context, so no parameter value is ever interpolated into it — while the
parameter values travel separately as the bindings mapping, pairing
each declared parameter name with its context value. -/
theorem c1_relational_binding_separates_values (schema : String) (q : PgQuery)
    (ctx ctx2 : List (String × Val)) (b b2 : BoundPg)
    (h : bindPg schema q ctx = Except.ok b)
    (h2 : bindPg schema q ctx2 = Except.ok b2) :
    b.stmt = qualify schema q.sql ∧ b2.stmt = b.stmt ∧
    List.Forall₂ (fun k p => p.1 = k ∧ getCtx ctx k = some p.2) q.params b.binds := by
  unfold bindPg at h h2
  cases h0 : bindPgParams q.params ctx with
  | error e => rw [h0] at h; cases h
  | ok bs =>
    rw [h0] at h
    cases h
    cases h1 : bindPgParams q.params ctx2 with
    | error e => rw [h1] at h2; cases h2
    | ok bs2 =>
      rw [h1] at h2
      cases h2
      exact ⟨rfl, rfl, bindPgParams_ok_forall q.params ctx bs h0⟩

def c1_ctx_injection : List (String × Val) :=
  [("patient_id", Val.vstr "1; DROP TABLE x;\x2d\x2d")]

def c1_bound_injection : BoundPg :=
  ⟨qualify "public" pgq_2.sql, [("patient_id", Val.vstr "1; DROP TABLE x;\x2d\x2d")]⟩

set_option maxRecDepth 200000 in
/-- C1 witness: binding the patient battery query against a context
whose `patient_id` is the statement-breaking string `1; DROP TABLE x;--`
leaves the statement text exactly the schema-qualified template — the
`:patient_id` placeholder intact, the malicious payload nowhere in the
text — and carries the payload solely in the separate bindings list. -/
theorem c1_relational_binding_separates_values_witness :
    bindPg "public" pgq_2 c1_ctx_injection = Except.ok c1_bound_injection ∧
    c1_bound_injection.stmt = qualify "public" pgq_2.sql ∧
    containsSub c1_bound_injection.stmt ":patient_id" = true ∧
    containsSub c1_bound_injection.stmt "1; DROP TABLE x;\x2d\x2d" = false ∧
    c1_bound_injection.binds = [("patient_id", Val.vstr "1; DROP TABLE x;\x2d\x2d")] :=
  ⟨rfl,
   (c1_relational_binding_separates_values "public" pgq_2 c1_ctx_injection
      c1_ctx_injection c1_bound_injection c1_bound_injection rfl rfl).1,
   rfl, rfl, rfl⟩

/-- C4 counterexample: the high-risk-patients query declares the two
parameters `staff_id` and `alert_threshold`; binding it against an
empty context — both declared names absent — fails naming only
`staff_id`, the first missing name, not every missing one (the
comprehension `{k: PARAMS_CTX[k] for k in wanted}` stops at the first
`KeyError`). -/
theorem c4_counterexample_first_key_only :
    bindPg "public" pgq_8 [] = Except.error "staff_id" ∧
    pgq_8.params = ["staff_id", "alert_threshold"] ∧
    ("staff_id" == "alert_threshold") = false :=
  ⟨rfl, rfl, rfl⟩

/-- C4 amended: when a declared parameter is absent from the context,
binding fails with a `KeyError` naming exactly the FIRST
declared-but-absent parameter (in declaration order), not all of them;
a definition declaring no parameters — such as the admin battery
distribution query — always binds successfully with zero bind
variables and raises nothing. -/
theorem c4_missing_parameter_behaviour :
    (∀ wanted ctx k, bindPgParams wanted ctx = Except.error k ↔
       wanted.find? (fun n => (getCtx ctx n).isNone) = some k) ∧
    (∀ ctx, bindPgParams [] ctx = Except.ok []) ∧
    (∀ schema ctx, bindPg schema pgq_10 ctx =
       Except.ok ⟨qualify schema pgq_10.sql, []⟩) := by
  refine ⟨?_, fun ctx => rfl, fun schema ctx => rfl⟩
  intro wanted ctx
  induction wanted with
  | nil => intro k; simp [bindPgParams]
  | cons k0 rest ih =>
    intro k
    unfold bindPgParams
    cases h0 : getCtx ctx k0 with
    | none => simp [List.find?, h0]
    | some v =>
      cases h1 : bindPgParams rest ctx with
      | error e =>
        simp only [List.find?, h0, Option.isNone_some, Bool.false_eq_true]
        have := ih k
        rw [h1] at this
        simpa using this
      | ok bs =>
        simp only [List.find?, h0, Option.isNone_some, Bool.false_eq_true]
        constructor
        · intro hcontra; cases hcontra
        · intro hfind
          have := (ih k).mpr (by simpa using hfind)
          rw [h1] at this
          cases this

/-- Auxiliary: the code's tag test agrees exactly with the spec's
visibility rule. -/
theorem okTags_iff (tags : Option (List String)) (role : String) :
    okTags tags role = true ↔ specVisible tags role := by
  unfold okTags specVisible
  cases tags with
  | none => simp; exact Or.inl (by decide)
  | some l =>
    cases l with
    | nil => simp; exact Or.inl (by decide)
    | cons x xs =>
      simp [List.mem_map]
      aesop

/-- C5: for every role string and every catalog, the role filter keeps
exactly the definitions whose tag set is empty or absent, contains the
wildcard tag, or contains the role case-insensitively; the output is a
sublist of the catalog (registration order preserved); and a role
matching no definition yields the empty list — the filter is a total
function and never raises. -/
theorem c5_role_filter (role : String) (qdict : List (String × PgQuery)) :
    (∀ p, p ∈ filter_queries_by_role qdict role ↔
       p ∈ qdict ∧ specVisible p.2.tags role) ∧
    (filter_queries_by_role qdict role).Sublist qdict ∧
    ((∀ p ∈ qdict, ¬ specVisible p.2.tags role) →
       filter_queries_by_role qdict role = []) := by
  refine ⟨?_, List.filter_sublist _, ?_⟩
  · intro p
    rw [filter_queries_by_role, List.mem_filter, okTags_iff]
  · intro hnone
    rw [filter_queries_by_role, List.filter_eq_nil_iff]
    exact fun p hp h => hnone p hp ((okTags_iff _ _).mp h)

/-- C5 witness: filtering the actual Postgres catalog for the unknown
role `nobody` (whose 14 definitions all carry nonempty, non-wildcard
tag sets) returns the empty list without raising. -/
theorem c5_role_filter_witness :
    filter_queries_by_role pgQueries "nobody" = [] :=
  (c5_role_filter "nobody" pgQueries).2.2 (by decide)

/-- C7: rendering an empty tabular result produces the no-data
indicator (`st.info("No rows."); return`) for every chart spec — the
emptiness check precedes every lookup of the spec's field roles, so no
exception can be raised. -/
theorem c7_empty_result_no_data (df : TabularResult) (spec : ChartSpec)
    (h : df.rows = []) : render_chart df spec = RenderResult.noData := by
  unfold render_chart pdEmpty
  rw [h]
  rfl

/-- C7 witness: an empty result under a treemap spec that carries none
of the field roles the treemap branch would consult still renders the
no-data indicator. -/
theorem c7_empty_result_no_data_witness :
    render_chart ⟨["a"], []⟩ { ctype := some "treemap" } = RenderResult.noData :=
  c7_empty_result_no_data ⟨["a"], []⟩ { ctype := some "treemap" } rfl

def c2_stage_template : List MVal :=
  [.mdoc [("$match", .mdoc [("patient_id", .mstr ":patient_id")])]]

/-- C2 (refuting theorem): binding the integer parameter
`patient_id = 7` into a stage template containing the token
`:patient_id` does NOT yield the literal integer `7`: because the
substitution serializes the pipeline with `str`, textually replaces
`:patient_id` inside the quoted literal `':patient_id'`, and
re-`eval`s the text, the resulting pipeline carries the STRING `"7"`.
-/
theorem c2_binding_yields_string_not_int :
    run_mongo_bind c2_stage_template [("patient_id", Val.vint 7)] =
      some [.mdoc [("$match", .mdoc [("patient_id", .mstr "7")])]] ∧
    MVal.isInt (MVal.mstr "7") = false ∧ MVal.isInt (MVal.mint 7) = true :=
  ⟨rfl, rfl, rfl⟩

/-- C3 (refuting theorem): running the heart-rate trend query the way
the Mongo panel always does — with an empty `params` dict — performs no
substitution and no check at all: the pipeline handed to the executor
still contains the unresolved placeholder string `":patient_id"`, and
no error of any kind is raised before the backend call. -/
theorem c3_unresolved_placeholder_passes_through (now : Int) :
    run_mongo_bind (mq_0 now).aggregate [] = some ((mq_0 now).aggregate) ∧
    containsStrListV ((mq_0 now).aggregate) ":patient_id" = true :=
  ⟨rfl, rfl⟩

/-- C10: for every entry of the Mongo catalog and every parameter
context, each membership test `"<name>" in q.get("aggregate", [])`
compares a bare string against the top-level stage dicts and is false,
so the detected parameter dict is always empty; `run_mongo_aggregate`
with empty params passes every pipeline through verbatim; in
particular the heart-rate query's pipeline keeps the literal string
`":patient_id"` in its `$match` stage. -/
theorem c10_param_detection_always_empty (now : Int)
    (ctx : List (String × Val)) :
    ((mongoQueries now).map (fun q => detectMongoParams q.2 ctx)).all
      List.isEmpty = true ∧
    (∀ stages, run_mongo_bind stages [] = some stages) ∧
    strInStages "patient_id" ((mq_0 now).aggregate) = false ∧
    containsStrListV ((mq_0 now).aggregate) ":patient_id" = true :=
  ⟨rfl, fun _ => rfl, rfl, rfl⟩

/-! Auxiliary lemmas for the renderer: no code path of `render_chart`
produces a validated `renderError` — the code contains no column
validation at all. -/

theorem renderXY_not_renderError (kind : String) (df : TabularResult)
    (a b : Option String) : (renderXY kind df a b).isRenderError = false := by
  unfold renderXY
  repeat' split
  all_goals rfl

theorem renderHeatmap_not_renderError (df : TabularResult) (spec : ChartSpec) :
    (renderHeatmap df spec).isRenderError = false := by
  unfold renderHeatmap
  repeat' split
  all_goals rfl

theorem renderTreemap_not_renderError (df : TabularResult) (spec : ChartSpec) :
    (renderTreemap df spec).isRenderError = false := by
  unfold renderTreemap
  repeat' split
  all_goals rfl

theorem renderDispatch_not_renderError (df : TabularResult) (spec : ChartSpec) :
    (renderDispatch df spec).isRenderError = false := by
  unfold renderDispatch
  dsimp only
  repeat' split
  all_goals first
    | rfl
    | apply renderXY_not_renderError
    | apply renderHeatmap_not_renderError
    | apply renderTreemap_not_renderError

theorem parse_dates_columns (df : TabularResult) :
    (parse_dates df).columns = df.columns := rfl

def c6_df : TabularResult :=
  ⟨["battery_range", "device_count"], [[some (MVal.mstr "80-100%"), some (MVal.mint 3)]]⟩

def c6_bar_spec : ChartSpec :=
  { ctype := some "bar", x := some "patient_name", y := some "alert_count" }

/-- C6 counterexample: a nonempty result whose columns are
`battery_range`/`device_count`, rendered under a bar spec referencing
the absent columns `patient_name`/`alert_count`, makes the plotting
call raise — the exception escapes `render_chart`, which performed no
up-front column validation and produced no `RenderError`. -/
theorem c6_counterexample_no_validation :
    render_chart c6_df c6_bar_spec =
      RenderResult.exn "ValueError: value not found in columns" ∧
    (render_chart c6_df c6_bar_spec).isRenderError = false ∧
    c6_df.columns.contains "patient_name" = false :=
  ⟨rfl, rfl, rfl⟩

/-- C6 amended: the renderer performs no column validation whatsoever
(no execution path yields a validated `RenderError`); for a nonempty
result, a line/bar spec whose `x`/`y` — or a pie spec whose
`names`/`values` — reference a column absent from the result makes the
plotting call raise an exception that escapes `render_chart` (it is
caught only by the panel-wide exception handler of the page). -/
theorem c6_missing_column_raises :
    (∀ df spec, (render_chart df spec).isRenderError = false) ∧
    (∀ df spec cx cy, pdEmpty df = false → spec.ctype = some "line" →
       spec.x = some cx → spec.y = some cy →
       (df.columns.contains cx && df.columns.contains cy) = false →
       render_chart df spec =
         RenderResult.exn "ValueError: value not found in columns") ∧
    (∀ df spec cx cy, pdEmpty df = false → spec.ctype = some "bar" →
       spec.x = some cx → spec.y = some cy →
       (df.columns.contains cx && df.columns.contains cy) = false →
       render_chart df spec =
         RenderResult.exn "ValueError: value not found in columns") ∧
    (∀ df spec cn cv, pdEmpty df = false → spec.ctype = some "pie" →
       spec.names = some cn → spec.values = some cv →
       (df.columns.contains cn && df.columns.contains cv) = false →
       render_chart df spec =
         RenderResult.exn "ValueError: value not found in columns") := by
  refine ⟨?_, ?_, ?_, ?_⟩
  · intro df spec
    unfold render_chart
    split
    · rfl
    · exact renderDispatch_not_renderError _ _
  · intro df spec cx cy h hty hx hy hmiss
    unfold render_chart renderDispatch renderXY
    rw [h, hty, hx, hy]
    simp only [Bool.false_eq_true, if_false, Option.getD_some]
    simp only [parse_dates_columns, hmiss]
    simp
  · intro df spec cx cy h hty hx hy hmiss
    unfold render_chart renderDispatch renderXY
    rw [h, hty, hx, hy]
    simp only [Bool.false_eq_true, if_false, Option.getD_some]
    simp only [parse_dates_columns, hmiss]
    simp
  · intro df spec cn cv h hty hn hv hmiss
    unfold render_chart renderDispatch renderXY
    rw [h, hty, hn, hv]
    simp only [Bool.false_eq_true, if_false, Option.getD_some]
    simp only [parse_dates_columns, hmiss]
    simp

def c6_line_spec : ChartSpec :=
  { ctype := some "line", x := some "hour", y := some "avg_heart_rate" }

def c6_pie_spec : ChartSpec :=
  { ctype := some "pie", names := some "severity", values := some "count" }

/-- C6 witness: all three missing-column cases evaluated on the
concrete nonempty result (columns `battery_range`/`device_count`),
under specs referencing columns that are not there. -/
theorem c6_missing_column_raises_witness :
    render_chart c6_df c6_line_spec =
      RenderResult.exn "ValueError: value not found in columns" ∧
    render_chart c6_df c6_bar_spec =
      RenderResult.exn "ValueError: value not found in columns" ∧
    render_chart c6_df c6_pie_spec =
      RenderResult.exn "ValueError: value not found in columns" ∧
    (render_chart c6_df c6_bar_spec).isRenderError = false :=
  ⟨c6_missing_column_raises.2.1 c6_df c6_line_spec "hour" "avg_heart_rate"
     rfl rfl rfl rfl rfl,
   c6_missing_column_raises.2.2.1 c6_df c6_bar_spec "patient_name" "alert_count"
     rfl rfl rfl rfl rfl,
   c6_missing_column_raises.2.2.2 c6_df c6_pie_spec "severity" "count"
     rfl rfl rfl rfl rfl,
   c6_missing_column_raises.1 c6_df c6_bar_spec⟩

/-- Auxiliary: membership in the accumulated column list. -/
theorem mem_addCols (c : String) (ks : List String) :
    ∀ acc, c ∈ addCols acc ks ↔ c ∈ acc ∨ c ∈ ks := by
  induction ks with
  | nil => intro acc; simp [addCols]
  | cons k ks ih =>
    intro acc
    show c ∈ addCols (if acc.contains k then acc else acc ++ [k]) ks ↔ _
    rw [ih]
    by_cases hk : acc.contains k
    · rw [if_pos hk]
      have hk2 : k ∈ acc := List.elem_iff.mp hk
      simp only [List.mem_cons]
      constructor
      · rintro (hc | hc)
        · exact Or.inl hc
        · exact Or.inr (Or.inr hc)
      · rintro (hc | hc | hc)
        · exact Or.inl hc
        · exact Or.inl (hc ▸ hk2)
        · exact Or.inr hc
    · rw [if_neg hk]
      simp only [List.mem_append, List.mem_singleton, List.mem_cons]
      tauto

/-- Auxiliary: membership in the folded union of observed fields. -/
theorem mem_foldl_addCols (c : String) (flat : List (List (String × MVal))) :
    ∀ acc, c ∈ flat.foldl (fun a d => addCols a (d.map Prod.fst)) acc ↔
      c ∈ acc ∨ ∃ d ∈ flat, c ∈ d.map Prod.fst := by
  induction flat with
  | nil => intro acc; simp
  | cons d flat ih =>
    intro acc
    show c ∈ flat.foldl _ (addCols acc (d.map Prod.fst)) ↔ _
    rw [ih, mem_addCols]
    simp only [List.mem_cons]
    constructor
    · rintro ((hc | hc) | ⟨d2, hd2, hc⟩)
      · exact Or.inl hc
      · exact Or.inr ⟨d, Or.inl rfl, hc⟩
      · exact Or.inr ⟨d2, Or.inr hd2, hc⟩
    · rintro (hc | ⟨d2, hd2 | hd2, hc⟩)
      · exact Or.inl (Or.inl hc)
      · exact Or.inl (Or.inr (hd2 ▸ hc))
      · exact Or.inr ⟨d2, hd2, hc⟩

/-- Auxiliary: a field lookup is null exactly when the key is absent
from the (flattened) document. -/
theorem getMField_eq_none_iff (d : List (String × MVal)) (c : String) :
    getMField d c = none ↔ c ∉ d.map Prod.fst := by
  induction d with
  | nil => simp [getMField]
  | cons kv rest ih =>
    obtain ⟨k2, v⟩ := kv
    unfold getMField
    by_cases hk : k2 = c
    · subst hk; simp
    · rw [if_neg hk, ih]
      simp [hk, Ne.symm hk]

/-- C8: the flattened tabular result of a document execution has as
columns exactly the union of the fields observed across all (flattened)
documents, in order of first appearance; each row holds, per column,
the document's value there, with `none` (null) exactly at the fields
the document lacks; concretely, documents `{a: 1}` and `{b: 2}` yield
columns `[a, b]` with rows `[1, null]` and `[null, 2]`. -/
theorem c8_flatten_union_null_fill :
    (mongoResult [[("a", MVal.mint 1)], [("b", MVal.mint 2)]] =
      ⟨["a", "b"], [[some (MVal.mint 1), none], [none, some (MVal.mint 2)]]⟩) ∧
    (∀ docs c, c ∈ (json_normalize docs).columns ↔
       ∃ d ∈ docs, c ∈ (flattenFields "" d).map Prod.fst) ∧
    (∀ d c, getMField d c = none ↔ c ∉ d.map Prod.fst) ∧
    (∀ docs, (json_normalize docs).rows =
       docs.map (fun d => (json_normalize docs).columns.map
         (fun c => getMField (flattenFields "" d) c))) := by
  refine ⟨by rfl, ?_, getMField_eq_none_iff, ?_⟩
  · intro docs c
    unfold json_normalize
    dsimp only
    rw [mem_foldl_addCols]
    simp [List.mem_map]
  · intro docs
    unfold json_normalize
    dsimp only
    rw [List.map_map]
    rfl

/-- C9: starting from a cache with no entry for the key, the first call
executes the backend and stores the result at its computation time
`t0`; a second call at any `t1` within the TTL window (`t1 ≤ t0 + 60`,
measured from computation time) returns the identical first result
without executing the backend — so the two calls cost at most one
execution; a call after TTL expiry (`t0 + 60 < t2`) triggers a fresh
recomputation, as does any call on an absent entry. -/
theorem c9_cache_ttl_window {α : Type}
    (st : List (String × CacheEntry α)) (k : String) (t0 t1 t2 : Nat)
    (v w u : α) (habs : cacheLookup st k = none)
    (h1 : t1 ≤ t0 + CACHE_TTL) (h2 : t0 + CACHE_TTL < t2) :
    (run_query_cached st k t0 v).2.2 = true ∧
    (run_query_cached (run_query_cached st k t0 v).2.1 k t1 w).1 = v ∧
    (run_query_cached (run_query_cached st k t0 v).2.1 k t1 w).2.2 = false ∧
    (run_query_cached (run_query_cached st k t0 v).2.1 k t2 u).1 = u ∧
    (run_query_cached (run_query_cached st k t0 v).2.1 k t2 u).2.2 = true := by
  unfold run_query_cached get_or_compute
  rw [habs]
  have hlook : cacheLookup ((k, ⟨v, t0⟩) :: st) k = some ⟨v, t0⟩ := by
    unfold cacheLookup
    rw [if_pos rfl]
  rw [hlook]
  dsimp only
  rw [if_pos h1, if_neg (by omega)]
  exact ⟨rfl, rfl, rfl, rfl, rfl⟩

/-- C9 witness: with an empty cache, key `"q1"`, computation at time 0,
a second call at time 60 (inside the window) and a third at 61 (after
expiry). -/
theorem c9_cache_ttl_window_witness :
    (run_query_cached ([] : List (String × CacheEntry Nat)) "q1" 0 1).2.2 = true ∧
    (run_query_cached (run_query_cached ([] : List (String × CacheEntry Nat)) "q1" 0 1).2.1 "q1" 60 2).1 = 1 ∧
    (run_query_cached (run_query_cached ([] : List (String × CacheEntry Nat)) "q1" 0 1).2.1 "q1" 60 2).2.2 = false ∧
    (run_query_cached (run_query_cached ([] : List (String × CacheEntry Nat)) "q1" 0 1).2.1 "q1" 61 3).1 = 3 ∧
    (run_query_cached (run_query_cached ([] : List (String × CacheEntry Nat)) "q1" 0 1).2.1 "q1" 61 3).2.2 = true :=
  c9_cache_ttl_window [] "q1" 0 60 61 1 2 3 rfl (by decide) (by decide)
